import Mathlib

/-!
Verification of `hass_remote_management.py` against its specification.

The Python module is embedded shallowly: each method of `HASSRemoteManagement`
becomes a pure Lean function over an explicit state, with the remote host's
observable behaviour (exit statuses, stdout streams, transfer outcomes,
progress-callback invocations) supplied by an `Env` record.
-/

set_option maxRecDepth 4000

/-- Errors the program can raise: a Python `NameError` for an unbound name,
the module's `SSHExecException` (raised with a message string, src line 78),
and a transfer failure propagated from the SFTP `get` call. -/
inductive Err where
  | nameError (name : String)
  | sshExec (msg : String)
  | transfer (src dest : String)
deriving DecidableEq

/-- Remote operations the session performs, in order: `exec_command` over SSH
(src line 64) and an SFTP `get` of a remote file to a local path (src line 94). -/
inductive Op where
  | exec (command : String) (maxAllowed : Nat)
  | scpGet (src dest : String)
deriving DecidableEq

/-- State of the tqdm progress tracker: created with `tqdm(total=total)`
(src line 83); `advanced` accumulates the offsets passed to `update` (src line 88). -/
structure Bar where
  total : Int
  advanced : Int
deriving DecidableEq

/-- The two progress-related attributes of the session used by
`_scp_loading_bar` (src lines 81-89): `_progress_bar` (the tqdm tracker, or
`None`) and `_progress_bar_last` (absent until first set, modelled as
`Option Int`; `getattr(self, "_progress_bar_last", None)` reads it). -/
structure ScpState where
  progress_bar : Option Bar
  progress_bar_last : Option Int
deriving DecidableEq

/-- Observable behaviour of the remote host and of the transfer machinery:
the exit status each command reports, the stdout lines it streams, whether an
SFTP `get` of a given remote path succeeds, and the cumulative
`(current, total)` values with which the transfer invokes the progress
callback. -/
structure Env where
  exitStatus : String → Nat
  stdoutLines : String → List String
  fetchOk : String → Bool
  chunks : String → List (Int × Int)

/-- Session state threaded through the workflow: the current content of the
session's log file, the remote operations performed so far, the local files
produced by transfers, and the progress-tracker attributes. -/
structure RunState where
  log : String
  trace : List Op
  localFiles : List String
  progress : ScpState
deriving DecidableEq

/-- State of a session that has performed no remote operation yet (the log
file does not exist yet; its content is modelled as empty). -/
def initialRunState : RunState :=
  { log := "", trace := [], localFiles := [],
    progress := { progress_bar := none, progress_bar_last := none } }

/-- Python's `line.rstrip("\n")` (src line 71): remove all trailing newline
characters. -/
def rstripNewlines (s : String) : String :=
  ⟨(s.data.reverse.dropWhile (fun ch => ch = '\n')).reverse⟩

/-- The message of the `SSHExecException` raised by `_ssh_exec`
(src line 76): the f-string interpolating the command and the exit status. -/
def execErrorMsg (command : String) (status : Nat) : String :=
  "Executed returned " ++ command ++ " returned " ++ toString status

/-- Embedding of `_ssh_exec` (src lines 61-79). The log file is opened via the
`_log_file` context manager, i.e. `open(name, "w+")` (src line 47), which
truncates the file; the command's stdout lines are written newline-stripped
and unseparated (src lines 70-74). After the stream ends the exit status is
compared with `max_allowed_return_code` (src line 75); if it exceeds the
allowance, `SSHExecException` is raised with `execErrorMsg` (src lines 76-78).
The first component is the state after the call (log written, operation
recorded) and the second is the exception, if any. -/
def ssh_exec (env : Env) (st : RunState) (command : String) (maxAllowed : Nat) :
    RunState × Option Err :=
  ({ st with
      log := String.join ((env.stdoutLines command).map rstripNewlines),
      trace := st.trace ++ [Op.exec command maxAllowed] },
   if env.exitStatus command > maxAllowed then
     some (Err.sshExec (execErrorMsg command (env.exitStatus command)))
   else none)

/-- Embedding of `_scp_loading_bar` (src lines 81-89): if no tracker exists,
create one sized to `total`; compute the offset as `current` minus the
remembered cumulative value when that attribute exists and is truthy
(a nonzero int), and as the absolute `current` otherwise; advance the tracker
by the offset and remember `current`. -/
def scp_loading_bar (p : ScpState) (current total : Int) : ScpState :=
  let bar : Bar :=
    match p.progress_bar with
    | none => { total := total, advanced := 0 }
    | some b => b
  let offset : Int :=
    match p.progress_bar_last with
    | none => current
    | some v => if v ≠ 0 then current - v else current
  { progress_bar := some { bar with advanced := bar.advanced + offset },
    progress_bar_last := some current }

/-- The sequence of progress-callback invocations a transfer performs, folded
over the session's progress attributes (the `callback=self._scp_loading_bar`
argument of `sftp_client.get`, src line 94). -/
def scpFold (p : ScpState) (cs : List (Int × Int)) : ScpState :=
  cs.foldl (fun q ct => scp_loading_bar q ct.1 ct.2) p

/-- Progress attributes after a completed transfer: all callback invocations
are folded in, and then `self._progress_bar = None` (src line 95) discards the
tracker. Note that `_progress_bar_last` is not touched. -/
def scp_callbacks (p : ScpState) (cs : List (Int × Int)) : ScpState :=
  { scpFold p cs with progress_bar := none }

/-- Total amount by which the progress tracker has been advanced after all
callback invocations of a transfer (the tracker's accumulated `update`
offsets, read before line 95 discards it). -/
def transferAdvance (p : ScpState) (cs : List (Int × Int)) : Int :=
  match (scpFold p cs).progress_bar with
  | some b => b.advanced
  | none => 0

/-- The value `getattr(self, "_progress_bar_last", None)` would contribute as
the subtrahend of the next delta: the remembered cumulative value, or 0 when
the attribute is absent (the `else` branch uses the absolute value, which
coincides with subtracting 0). -/
def lastVal (p : ScpState) : Int :=
  match p.progress_bar_last with
  | none => 0
  | some v => v

/-- Cumulative value of the last callback invocation of a transfer whose
invocations are `(c, _) :: cs`. -/
def lastCurrent (d : Int) : List (Int × Int) → Int
  | [] => d
  | (c, _) :: tl => lastCurrent c tl

/-- Embedding of `_scp` (src lines 91-95): open an SFTP channel and `get` the
remote file, with `_scp_loading_bar` as progress callback; on success the
local file exists and `self._progress_bar = None` runs; on failure the
transfer error propagates (modelled as failing before any callback runs). -/
def scp (env : Env) (st : RunState) (src dest : String) : RunState × Option Err :=
  if env.fetchOk src then
    ({ st with
        trace := st.trace ++ [Op.scpGet src dest],
        localFiles := st.localFiles ++ [dest],
        progress := scp_callbacks st.progress (env.chunks src) }, none)
  else
    ({ st with trace := st.trace ++ [Op.scpGet src dest] },
     some (Err.transfer src dest))

/-- Remote path of the tar archive created by the backup's first command
(src line 100). -/
def tarArchivePath (ts : String) : String :=
  "/tmp/homeassistant-" ++ ts ++ ".back.tar"

/-- The archive command of `backup` (src line 100). -/
def tarCmd (ts : String) : String :=
  "sudo tar cvf " ++ tarArchivePath ts ++ " /home/homeassistant/.homeassistant/"

/-- The compress command of `backup` (src line 103). -/
def bzip2Cmd (ts : String) : String :=
  "sudo bzip2 " ++ tarArchivePath ts

/-- The remote source path passed to `_scp` by `backup` (src line 105). -/
def scpSrc (ts : String) : String :=
  "/tmp/homeassistant-" ++ ts ++ ".back.tar"

/-- The local destination path passed to `_scp` by `backup` (src line 106). -/
def scpDest (ts : String) : String :=
  "homeassistant-" ++ ts ++ ".back.tar.bz2"

/-- The cleanup command of `backup` (src line 108). -/
def rmCmd (ts : String) : String :=
  "sudo rm /tmp/homeassistant-" ++ ts ++ ".back.*"

/-- Whether `pat` is a suffix of `s`, on the underlying character lists. -/
def endsWithStr (s pat : String) : Bool :=
  pat.data.isSuffixOf s.data

/-- Embedding of `backup` (src lines 97-108): archive with allowance 1,
compress with allowance 0, fetch, cleanup with allowance 0; each step runs
only if the previous one did not raise, and a raised exception propagates
(aborting the remaining steps). `ts` is the session's cached
`_now_iso8601` timestamp. -/
def backup (env : Env) (ts : String) (st : RunState) : RunState × Option Err :=
  let r1 := ssh_exec env st (tarCmd ts) 1
  match r1.2 with
  | some e => (r1.1, some e)
  | none =>
    let r2 := ssh_exec env r1.1 (bzip2Cmd ts) 0
    match r2.2 with
    | some e => (r2.1, some e)
    | none =>
      let r3 := scp env r2.1 (scpSrc ts) (scpDest ts)
      match r3.2 with
      | some e => (r3.1, some e)
      | none => ssh_exec env r3.1 (rmCmd ts) 0

/-- Embedding of a sequence of `_ssh_exec` calls in one session: each entry
is a command with its allowance; a raised exception stops the sequence. -/
def runCommands (env : Env) : RunState → List (String × Nat) → RunState × Option Err
  | st, [] => (st, none)
  | st, (c, k) :: rest =>
    let r := ssh_exec env st c k
    match r.2 with
    | some _ => (r.1, r.2)
    | none => runCommands env r.1 rest

/-- The command whose output the log file holds after
`runCommands env st ((c, k) :: cmds)` finishes: the first command whose exit
status exceeds its allowance, or the final command when none fails. -/
def lastExecuted (env : Env) (c : String) (k : Nat) : List (String × Nat) → String
  | [] => c
  | (c2, k2) :: rest =>
    if env.exitStatus c > k then c else lastExecuted env c2 k2 rest

/-- Names bound at module level of `hass_remote_management.py` when
`__init__` runs: the imported names (src lines 1-9) and the module's own
definitions (src lines 12-23). `_None` is bound neither here nor among
Python's builtins. -/
def moduleNames : List String :=
  ["argparse", "datetime", "logging", "contextmanager", "cached_property",
   "TextIO", "SFTPClient", "SSHClient", "SSHException", "tqdm",
   "HASS_REMOTE_MANAGEMENT_NAME", "logger", "SSHExecException",
   "HASSRemoteManagement"]

/-- Python name resolution for a global name read inside a method of this
module: the name evaluates to itself if bound, and raises `NameError`
otherwise. -/
def resolveName (n : String) : Except Err String :=
  if moduleNames.contains n then Except.ok n else Except.error (Err.nameError n)

/-- A constructed session object: the attributes `__init__` assigns
(src lines 27-30). `progress_bar` records what `_progress_bar` would hold if
line 30 completed (unreachable, since evaluating `_None` raises first). -/
structure Session where
  hostname : String
  username : String
  progress_bar : Option Bar

/-- Embedding of `__init__` (src lines 27-30): `_hostname` and `_username`
are assigned, then the right-hand side of `self._progress_bar = _None`
evaluates the unbound module-level name `_None`. -/
def initSession (hostname username : String) : Except Err Session :=
  match resolveName "_None" with
  | Except.error e => Except.error e
  | Except.ok _ =>
      Except.ok { hostname := hostname, username := username, progress_bar := none }

/-- The whole `backup` scenario of the CLI: construct the session for the
given host and user (src line 137), then invoke `backup()` (src line 145)
with the session's cached timestamp `ts`. An exception during construction
propagates and no remote operation runs. -/
def endToEnd (env : Env) (ts host user : String) : RunState × Option Err :=
  match initSession host user with
  | Except.error e => (initialRunState, some e)
  | Except.ok _ => backup env ts initialRunState

/-- The parsed CLI arguments (src lines 115-131): an argparse `Namespace`
with the four destinations registered on the parser. -/
structure Args where
  deploy : Bool
  backup : Bool
  host : String
  verbose : Bool

/-- Attribute names present on the parsed `Namespace`: every registered
destination is always set (the `store_true` flags default to `False`), so all
four names are always attributes of `args`. -/
def argsAttrs : List String :=
  ["deploy", "backup", "host", "verbose"]

/-- Python's `name in args` on an argparse `Namespace` (src lines 140, 142):
membership tests whether `name` is an attribute of the namespace, not the
value of the flag. -/
def argsContains (_a : Args) (name : String) : Bool :=
  argsAttrs.contains name

/-- The operation the CLI dispatches to. -/
inductive Operation where
  | backup
  | deploy
deriving DecidableEq

/-- Embedding of the dispatch at src lines 139-145: `fn = None`; if
`"backup" in args` then `fn = manager.backup`, elif `"deploy" in args` then
`fn = manager.deploy`; `none` models `fn` remaining `None`. -/
def selectOperation (a : Args) : Option Operation :=
  if argsContains a "backup" then some Operation.backup
  else if argsContains a "deploy" then some Operation.deploy
  else none

/-- Connection activity observable through the paramiko client: how many
times `connect` ran and how many times `close` ran. -/
structure ConnActivity where
  connectAttempts : Nat
  closes : Nat
deriving DecidableEq

/-- Session state relevant to teardown: whether the `cached_property`
`_ssh_client` (src lines 53-59) has been evaluated, plus the connection
activity so far. -/
structure DelState where
  sshClientCached : Bool
  activity : ConnActivity
deriving DecidableEq

/-- Reading `self._ssh_client`: a `cached_property`, so the first access
creates an `SSHClient`, loads host keys and connects (src lines 56-58);
later accesses return the cached client. -/
def readSshClient (s : DelState) : DelState :=
  if s.sshClientCached then s
  else { sshClientCached := true,
         activity := { s.activity with
                        connectAttempts := s.activity.connectAttempts + 1 } }

/-- Embedding of `__del__` (src lines 32-35): `if self._ssh_client:`
evaluates the cached property (connecting when it was never evaluated); the
resulting `SSHClient` object is truthy, so `close()` always runs. -/
def delSession (s : DelState) : DelState :=
  let s2 := readSshClient s
  { s2 with activity := { s2.activity with closes := s2.activity.closes + 1 } }

/-! ## Helper lemmas -/

/-- Concrete environment whose commands all exit with status 2 and stream no
output. -/
def envHigh : Env :=
  { exitStatus := fun _ => 2, stdoutLines := fun _ => [],
    fetchOk := fun _ => true, chunks := fun _ => [] }

/-- Concrete environment whose commands all exit with status 0 and stream no
output. -/
def envAllOk : Env :=
  { exitStatus := fun _ => 0, stdoutLines := fun _ => [],
    fetchOk := fun _ => true, chunks := fun _ => [] }

/-- Concrete environment for the end-to-end backup scenario: the archive
command exits with status 1 and every other command with 0; transfers
succeed. -/
def envScenario : Env :=
  { exitStatus := fun c => if c = tarCmd "T" then 1 else 0,
    stdoutLines := fun _ => [], fetchOk := fun _ => true, chunks := fun _ => [] }

/-- Concrete environment where command `a` streams the line `x` and every
other command streams the line `y`; all commands succeed. -/
def envTwoCmds : Env :=
  { exitStatus := fun _ => 0,
    stdoutLines := fun c => if c = "a" then ["x\n"] else ["y\n"],
    fetchOk := fun _ => true, chunks := fun _ => [] }

theorem string_data_append (s t : String) : (s ++ t).data = s.data ++ t.data := by
  cases s
  cases t
  rfl

theorem execErrorMsg_data (c : String) (n : Nat) :
    (execErrorMsg c n).data
      = "Executed returned ".data ++ (c.data ++ (" returned ".data ++ (toString n).data)) := by
  simp [execErrorMsg, string_data_append, List.append_assoc]

theorem scpFold_cons (p : ScpState) (c t : Int) (cs : List (Int × Int)) :
    scpFold p ((c, t) :: cs) = scpFold (scp_loading_bar p c t) cs := rfl

theorem scp_loading_bar_step (T a v c2 t2 : Int) :
    scp_loading_bar
        { progress_bar := some { total := T, advanced := a },
          progress_bar_last := some v } c2 t2
      = { progress_bar := some { total := T, advanced := a + (c2 - v) },
          progress_bar_last := some c2 } := by
  by_cases h : v = 0
  · subst h
    simp [scp_loading_bar]
  · simp [scp_loading_bar, h]

theorem scpFold_bar_aux (cs : List (Int × Int)) :
    ∀ (T v0 c0 : Int),
      (scpFold
          { progress_bar := some { total := T, advanced := c0 - v0 },
            progress_bar_last := some c0 } cs).progress_bar
        = some { total := T, advanced := lastCurrent c0 cs - v0 } := by
  induction cs with
  | nil =>
    intro T v0 c0
    simp [scpFold, lastCurrent]
  | cons hd tl ih =>
    intro T v0 c0
    obtain ⟨c2, t2⟩ := hd
    rw [scpFold_cons, scp_loading_bar_step]
    have harith : (c0 - v0) + (c2 - c0) = c2 - v0 := by omega
    rw [harith]
    exact ih T v0 c2

theorem scpFold_last_aux (cs : List (Int × Int)) :
    ∀ (p : ScpState) (c t : Int),
      (scpFold (scp_loading_bar p c t) cs).progress_bar_last
        = some (lastCurrent c cs) := by
  induction cs with
  | nil =>
    intro p c t
    simp [scpFold, scp_loading_bar, lastCurrent]
  | cons hd tl ih =>
    intro p c t
    obtain ⟨c2, t2⟩ := hd
    rw [scpFold_cons]
    exact ih (scp_loading_bar p c t) c2 t2

theorem runCommands_cons (env : Env) (st : RunState) (c : String) (k : Nat)
    (rest : List (String × Nat)) :
    runCommands env st ((c, k) :: rest)
      = if env.exitStatus c > k
        then ((ssh_exec env st c k).1, (ssh_exec env st c k).2)
        else runCommands env (ssh_exec env st c k).1 rest := by
  by_cases h : env.exitStatus c > k <;> simp [runCommands, ssh_exec, h]

/-! ## Claim theorems -/

/-- C1: for every command `c` and threshold `k`, `_ssh_exec` raises no
exception when the observed exit status is at most `k`, and raises an
`SSHExecException` whose message contains the command text and the exact
observed exit status when the status is strictly greater than `k`. -/
theorem run_exit_code_policy (env : Env) (st : RunState) (c : String) (k : Nat) :
    (env.exitStatus c ≤ k → (ssh_exec env st c k).2 = none) ∧
    (k < env.exitStatus c →
      (ssh_exec env st c k).2
          = some (Err.sshExec (execErrorMsg c (env.exitStatus c))) ∧
      (∃ a b, (execErrorMsg c (env.exitStatus c)).data = a ++ c.data ++ b) ∧
      (∃ a b, (execErrorMsg c (env.exitStatus c)).data
          = a ++ (toString (env.exitStatus c)).data ++ b)) := by
  constructor
  · intro h
    have hn : ¬ env.exitStatus c > k := by omega
    simp [ssh_exec, hn]
  · intro h
    have hp : env.exitStatus c > k := h
    refine ⟨by simp [ssh_exec, hp], ?_, ?_⟩
    · refine ⟨"Executed returned ".data,
        " returned ".data ++ (toString (env.exitStatus c)).data, ?_⟩
      rw [execErrorMsg_data]
      simp [List.append_assoc]
    · refine ⟨"Executed returned ".data ++ c.data ++ " returned ".data, [], ?_⟩
      rw [execErrorMsg_data]
      simp [List.append_assoc]

/-- C1 witness: with exit status 0 against threshold 0 the call raises
nothing, and with exit status 2 against threshold 0 it raises the
`SSHExecException` carrying the command and the status. -/
theorem run_exit_code_policy_witness :
    (ssh_exec envAllOk initialRunState "tar" 0).2 = none ∧
    (ssh_exec envHigh initialRunState "tar" 0).2
      = some (Err.sshExec (execErrorMsg "tar" 2)) :=
  ⟨(run_exit_code_policy envAllOk initialRunState "tar" 0).1 (by decide),
   ((run_exit_code_policy envHigh initialRunState "tar" 0).2 (by decide)).1⟩

/-- C10: constructing a session always raises a `NameError` for the unbound
name `_None` (src line 30), so construction never succeeds and no session
operation is reachable through normal construction. -/
theorem init_raises_name_error (hostname username : String) :
    initSession hostname username = Except.error (Err.nameError "_None") := rfl

/-- C9: when the archive command exits with status 2, exceeding its allowance
of 1, `backup` raises the `SSHExecException` for that command and performs no
further remote operation: the trace gains only the archive command and no
local file is produced. -/
theorem backup_aborts_after_archive_failure (env : Env) (ts : String)
    (st : RunState) (h : env.exitStatus (tarCmd ts) = 2) :
    (backup env ts st).2 = some (Err.sshExec (execErrorMsg (tarCmd ts) 2)) ∧
    (backup env ts st).1.trace = st.trace ++ [Op.exec (tarCmd ts) 1] ∧
    (backup env ts st).1.localFiles = st.localFiles := by
  simp [backup, ssh_exec, h]

/-- C9 witness: in the environment where every command exits with status 2,
`backup` for timestamp `T` raises on the archive command, its trace holds the
archive command only, and no local file exists. -/
theorem backup_aborts_after_archive_failure_witness :
    (backup envHigh "T" initialRunState).2
      = some (Err.sshExec (execErrorMsg (tarCmd "T") 2)) ∧
    (backup envHigh "T" initialRunState).1.trace = [Op.exec (tarCmd "T") 1] ∧
    (backup envHigh "T" initialRunState).1.localFiles = [] :=
  backup_aborts_after_archive_failure envHigh "T" initialRunState rfl

/-- C2: the remote source path `backup` passes to `_scp` is the fetch
operation performed by the workflow, but it is the uncompressed
`/tmp/homeassistant-<ts>.back.tar` path: it does not end in `.tar.bz2` and
differs from the path the bzip2 step produces (the input path with `.bz2`
appended), even though the local destination is named `.tar.bz2`. -/
theorem backup_fetch_source_is_tar_not_bz2 :
    Op.scpGet (scpSrc "T") (scpDest "T") ∈ (backup envAllOk "T" initialRunState).1.trace ∧
    scpSrc "T" = "/tmp/homeassistant-T.back.tar" ∧
    scpDest "T" = "homeassistant-T.back.tar.bz2" ∧
    endsWithStr (scpSrc "T") ".tar.bz2" = false ∧
    scpSrc "T" ≠ tarArchivePath "T" ++ ".bz2" := by
  decide

/-- C4 as the code executes it: the end-to-end backup scenario for
`user@host` — archive exits 1 (within its allowance), compress exits 0, the
fetch succeeds, cleanup exits 0 — nevertheless raises the construction-time
`NameError` for `_None`, so the workflow never completes and no local file is
produced. -/
theorem backup_end_to_end_raises_name_error (env : Env) (ts host user : String)
    (h1 : env.exitStatus (tarCmd ts) = 1)
    (h2 : env.exitStatus (bzip2Cmd ts) = 0)
    (h3 : env.fetchOk (scpSrc ts) = true)
    (h4 : env.exitStatus (rmCmd ts) = 0) :
    (endToEnd env ts host user).2 = some (Err.nameError "_None") ∧
    (endToEnd env ts host user).1.localFiles = [] :=
  ⟨rfl, rfl⟩

/-- C4 witness: the concrete scenario environment (archive exits 1, all other
commands exit 0, transfers succeed) for timestamp `T` and session
`user@host`: the invocation raises the `NameError` and yields no local
file. -/
theorem backup_end_to_end_raises_name_error_witness :
    (endToEnd envScenario "T" "host" "user").2 = some (Err.nameError "_None") ∧
    (endToEnd envScenario "T" "host" "user").1.localFiles = [] :=
  backup_end_to_end_raises_name_error envScenario "T" "host" "user"
    (by decide) (by decide) rfl (by decide)

/-- C3 counterexample: a session that runs command `a` (stdout line `x`) and
then command `b` (stdout line `y`), both succeeding; after the last call the
log file holds only `y` — each `_ssh_exec` reopens the log with truncating
`w+` mode — and not the concatenation `xy` of every command's
newline-stripped stdout. -/
theorem session_log_not_cumulative :
    (runCommands envTwoCmds initialRunState [("a", 0), ("b", 0)]).1.log = "y" ∧
    (runCommands envTwoCmds initialRunState [("a", 0), ("b", 0)]).1.log
      ≠ String.join [rstripNewlines "x\n", rstripNewlines "y\n"] := by
  decide

/-- C3 amended: after a session executes a nonempty sequence of commands, the
log file contains exactly the newline-stripped, unseparated stdout lines of
the last command executed (the first failing command, or the final one when
all succeed); each call truncates the log, discarding earlier content. -/
theorem session_log_truncated_to_last (env : Env) :
    ∀ (cmds : List (String × Nat)) (st : RunState) (c : String) (k : Nat),
      (runCommands env st ((c, k) :: cmds)).1.log
        = String.join ((env.stdoutLines (lastExecuted env c k cmds)).map rstripNewlines) := by
  intro cmds
  induction cmds with
  | nil =>
    intro st c k
    by_cases h : env.exitStatus c > k
    · simp [runCommands, ssh_exec, lastExecuted, h]
    · simp [runCommands, ssh_exec, lastExecuted, h]
  | cons hd tl ih =>
    intro st c k
    obtain ⟨c2, k2⟩ := hd
    by_cases h : env.exitStatus c > k
    · rw [runCommands_cons, if_pos h]
      simp [ssh_exec, lastExecuted, h]
    · rw [runCommands_cons, if_neg h, ih _ c2 k2]
      simp [lastExecuted, h]

/-- C5 counterexample: a first transfer whose callbacks report cumulative
value 5 completes; the next transfer's callbacks report cumulative values
`[3]`, yet its tracker is advanced by a total of `-2`, not by the final
cumulative value 3 — because `_progress_bar_last` kept the previous
transfer's value. -/
theorem transfer_advance_contaminated :
    transferAdvance (scp_callbacks { progress_bar := none, progress_bar_last := none }
        [(5, 10)]) [(3, 10)] = -2 ∧
    transferAdvance (scp_callbacks { progress_bar := none, progress_bar_last := none }
        [(5, 10)]) [(3, 10)] ≠ 3 := by
  decide

/-- C5 amended: over a transfer with callback cumulative values
`c :: (map fst cs)` that starts with no tracker, the tracker's total advance
telescopes to the final cumulative value minus the cumulative value
remembered from before the transfer (0 when none is remembered); it equals
the final cumulative value exactly when nothing nonzero is remembered, e.g.
on the session's first transfer. -/
theorem transfer_advance_telescopes (l : Option Int) (c t : Int)
    (cs : List (Int × Int)) :
    transferAdvance ⟨none, l⟩ ((c, t) :: cs)
      = lastCurrent c cs - lastVal ⟨none, l⟩ := by
  have hstep : scp_loading_bar ⟨none, l⟩ c t
      = ⟨some ⟨t, c - lastVal ⟨none, l⟩⟩, some c⟩ := by
    cases l with
    | none => simp [scp_loading_bar, lastVal]
    | some v =>
      by_cases h : v = 0
      · subst h
        simp [scp_loading_bar, lastVal]
      · simp [scp_loading_bar, lastVal, h]
  have haux := scpFold_bar_aux cs t (lastVal ⟨none, l⟩) c
  simp only [transferAdvance, scpFold_cons, hstep, haux]

/-- C6 counterexample: after a transfer whose callbacks reported cumulative
value 5 completes, the remembered cumulative value is still `some 5` (only
the tracker is set to `None`, src line 95); on the first callback of the
next transfer the fresh tracker is advanced by `3 - 5 = -2`, not by the
absolute cumulative value 3. -/
theorem progress_last_survives_transfer :
    (scp_callbacks { progress_bar := none, progress_bar_last := none }
        [(5, 10)]).progress_bar_last = some 5 ∧
    (scp_loading_bar (scp_callbacks { progress_bar := none, progress_bar_last := none }
        [(5, 10)]) 3 10).progress_bar
      = some { total := 10, advanced := -2 } := by
  decide

/-- C6 amended: when a transfer with callback cumulative values
`c :: (map fst cs)` completes, the progress tracker is discarded but the
remembered last cumulative value is retained and equals the transfer's final
cumulative value; the next transfer therefore starts with that value still
in place rather than fresh. -/
theorem scp_discards_bar_keeps_last (p : ScpState) (c t : Int)
    (cs : List (Int × Int)) :
    (scp_callbacks p ((c, t) :: cs)).progress_bar = none ∧
    (scp_callbacks p ((c, t) :: cs)).progress_bar_last = some (lastCurrent c cs) := by
  refine ⟨rfl, ?_⟩
  show (scpFold p ((c, t) :: cs)).progress_bar_last = some (lastCurrent c cs)
  rw [scpFold_cons]
  exact scpFold_last_aux cs p c t

/-- C7 as the code executes it: the dispatch tests `"backup" in args`, which
checks attribute presence on the parsed namespace and is always true, so the
backup operation is selected even when only the deploy flag was passed; the
backup-flag case coincidentally selects backup as the claim says. -/
theorem cli_always_selects_backup :
    selectOperation { deploy := true, backup := false, host := "u@h", verbose := false }
      = some Operation.backup ∧
    selectOperation { deploy := true, backup := false, host := "u@h", verbose := false }
      ≠ some Operation.deploy ∧
    selectOperation { deploy := false, backup := true, host := "u@h", verbose := false }
      = some Operation.backup := by
  decide

/-- C8 as the code executes it: tearing down a session whose connection was
never established evaluates the `_ssh_client` cached property inside
`__del__`, performing a connection attempt and then a close (the claim says
neither happens); tearing down a session that was connected closes it exactly
once without reconnecting. -/
theorem teardown_connects_when_never_connected :
    (delSession { sshClientCached := false, activity := { connectAttempts := 0, closes := 0 } }).activity
      = { connectAttempts := 1, closes := 1 } ∧
    (delSession { sshClientCached := true, activity := { connectAttempts := 1, closes := 0 } }).activity
      = { connectAttempts := 1, closes := 1 } := by
  decide
